import Mathlib

/-!
Verification of the Michigan Medicaid behavioral-health analysis pipeline:
a shallow embedding of the data-acquisition, cleaning and aggregation code
(src/apiscraper.py, src/datacleaner.py, analyze.py), together with theorems
settling the specified properties of each component.
-/

set_option maxHeartbeats 1000000

namespace Medicaid

/-- A cell of the tabular data set: raw string values as delivered by the
CMS API or the CSV cache, numeric values produced by type conversion, and
the missing-value marker (the pandas NaN) produced when a conversion fails. -/
inductive Cell where
  | str (s : String)
  | num (q : ℚ)
  | missing
  deriving DecidableEq

/-- A data frame in column-major form: a list of named columns, each column
a list of cells.  Mirrors the pandas DataFrame as used by datacleaner.py,
whose cleaning pipeline acts column-wise.  A well-formed frame has all
columns of equal length. -/
structure DataFrame where
  cols : List (String × List Cell)
  deriving DecidableEq

/-- Number of rows of a frame, the pandas len(df): the length of the first
column (all columns agree on a well-formed frame). -/
def numRows (df : DataFrame) : ℕ :=
  match df.cols with
  | [] => 0
  | c :: _ => c.2.length

/-- The cells of the named column, when present. -/
def getCol (df : DataFrame) (name : String) : Option (List Cell) :=
  (df.cols.find? (fun c => c.1 == name)).map (fun c => c.2)

/-- Numeric value of a list of decimal digit characters. -/
def digitsToNat (cs : List Char) : ℕ :=
  cs.foldl (fun acc c => acc * 10 + (c.toNat - 48)) 0

/-- Model of the pandas to_numeric conversion with coercion of failures, on
the string form of one cell, covering the literal shapes that occur in this
data set: an optional sign, decimal digits, optionally one decimal point.
Every other string coerces to `none` (the missing marker).  Exponent forms,
infinities and whitespace padding do not occur in any claim and are not
modelled. -/
def toNumericStr (s : String) : Option ℚ :=
  let cs := s.data
  let neg : Bool := cs.head? == some '-'
  let body := if cs.head? == some '-' || cs.head? == some '+' then cs.tail else cs
  let ip := body.takeWhile (fun c => c != '.')
  let rest := body.dropWhile (fun c => c != '.')
  let mag : Option ℚ :=
    match rest with
    | [] =>
        if ip ≠ [] ∧ ip.all Char.isDigit then some (digitsToNat ip : ℚ) else none
    | _ :: frac =>
        if (ip.all Char.isDigit ∧ frac.all Char.isDigit) ∧ (ip ≠ [] ∨ frac ≠ []) then
          some ((digitsToNat ip : ℚ) + (digitsToNat frac : ℚ) / (10 : ℚ) ^ frac.length)
        else none
  mag.map (fun m => if neg then -m else m)

/-- Model of str.replace removing the thousands separator: drops every
comma (datacleaner.py line 34). -/
def stripCommas (s : String) : String :=
  ⟨s.data.filter (fun c => c != ',')⟩

/-- Model of astype(str) on one cell: raw strings pass through, a missing
value prints as the string nan (which then fails numeric conversion), an
already numeric cell prints its numeral. -/
def cellToString : Cell → String
  | .str s => s
  | .num q => toString q
  | .missing => "nan"

/-- One cell of a numeric-designated column after clean_datatypes: comma
stripping followed by numeric coercion, any failure becoming the missing
marker (datacleaner.py lines 33-36). -/
def coerceNumeric (c : Cell) : Cell :=
  match toNumericStr (stripCommas (cellToString c)) with
  | some q => .num q
  | none => .missing

/-- The fixed list of numeric-designated columns of clean_datatypes
(datacleaner.py lines 19-26). -/
def numericColumns : List String :=
  ["Number of Active Patients",
   "Number of Eligible MCO Patients",
   "Number of Providers",
   "Percent Of Eligible Patients Receving Services",
   "Number of Services per Active Patient",
   "Calendar Year"]

/-- MedicaidDataCleaner.clean_datatypes: each designated numeric column
present in the frame is comma-stripped and coerced cell by cell; all other
columns pass through unchanged; designated columns absent from the frame
are simply not there to transform.  The Python works on df.copy(), so the
function is pure, as here (datacleaner.py lines 17-38). -/
def cleanDatatypes (df : DataFrame) : DataFrame :=
  ⟨df.cols.map (fun c =>
    if c.1 ∈ numericColumns then (c.1, c.2.map coerceNumeric) else c)⟩

/-- The boolean row mask df[name] == v used by the equality filters.  When
the named column is absent the Python raises a KeyError; that case is
outside every claim and is modelled by the empty mask. -/
def colMask (df : DataFrame) (name v : String) : List Bool :=
  match getCol df name with
  | some cells => cells.map (fun c => c == Cell.str v)
  | none => []

/-- Keep the cells whose mask entry is true (boolean-mask row selection). -/
def applyMask (mask : List Bool) (cells : List Cell) : List Cell :=
  (mask.zip cells).filterMap (fun p => if p.1 then some p.2 else none)

/-- Row selection df[df[name] == v].copy(), as performed by filter_michigan
and filter_behavioral_health (datacleaner.py lines 40-50): every column is
restricted to the rows where the named column holds the given string. -/
def filterEq (df : DataFrame) (name v : String) : DataFrame :=
  ⟨df.cols.map (fun c => (c.1, applyMask (colMask df name v) c.2))⟩

/-- Outcome of the cleaning pipeline: the Python returns None when a filter
stage leaves zero rows (the EmptyResult signal of the spec), and otherwise
the filtered frame; the boolean records whether the low-row-count warning
was printed (a non-fatal print in the Python, surfaced here as data). -/
inductive CleanOutcome where
  | emptyResult
  | ok (df : DataFrame) (warned : Bool)
  deriving DecidableEq

/-- MedicaidDataCleaner.clean_michigan_behavioral (datacleaner.py lines
65-89): clean the data types, filter State == Michigan, short-circuit on
zero rows, filter Service Category == Behavioral Health, short-circuit on
zero rows, then warn (without aborting) when fewer than 11000 rows remain,
returning the filtered frame either way. -/
def cleanMichiganBehavioral (df : DataFrame) : CleanOutcome :=
  let df1 := cleanDatatypes df
  let dfMI := filterEq df1 "State" "Michigan"
  if numRows dfMI = 0 then .emptyResult
  else
    let dfBH := filterEq dfMI "Service Category" "Behavioral Health"
    if numRows dfBH = 0 then .emptyResult
    else .ok dfBH (decide (numRows dfBH < 11000))

/-- Outcome of one HTTP page request, abstracting requests.get: a 200
response carrying a JSON batch of records, a non-success HTTP status, or a
network-level exception (timeout, connection reset). -/
inductive PageResp (α : Type) where
  | ok (batch : List α)
  | httpError
  | netError
  deriving DecidableEq

/-- Result of a whole fetch: the accumulated table on success, the Python
None on any page failure (carrying no rows at all), and a marker for fuel
exhaustion of the model (the source loop is while True; the fuel argument
makes the embedding total, and every theorem supplies enough fuel for the
bound never to be reached). -/
inductive FetchResult (α : Type) where
  | success (rows : List α)
  | failure
  | diverge
  deriving DecidableEq

/-- The pagination loop of MedicaidAPIScraper.fetch_from_api (apiscraper.py
lines 36-57), paired with the number of HTTP requests issued so far: each
iteration requests the page at the current offset; an empty batch ends the
fetch with the rows accumulated; a short batch (fewer than the fixed limit
of 1000) is appended and ends the fetch; a full batch is appended and the
loop continues at offset + 1000; a non-success status or network exception
ends the whole fetch with failure and no rows (the Python returns None from
lines 55-57 and 67-69). -/
def fetchLoop {α : Type} (endpoint : ℕ → PageResp α) :
    List α → ℕ → ℕ → ℕ → ℕ × FetchResult α
  | _, count, _, 0 => (count, .diverge)
  | acc, count, offset, fuel + 1 =>
    match endpoint offset with
    | .ok batch =>
        if batch.isEmpty then (count + 1, .success acc)
        else
          if batch.length < 1000 then (count + 1, .success (acc ++ batch))
          else fetchLoop endpoint (acc ++ batch) (count + 1) (offset + 1000) fuel
    | .httpError => (count + 1, .failure)
    | .netError => (count + 1, .failure)

/-- MedicaidAPIScraper.fetch_from_api: run the pagination loop from an empty
accumulator at offset 0, returning the request count and the result. -/
def fetchFromApi {α : Type} (endpoint : ℕ → PageResp α) (fuel : ℕ) :
    ℕ × FetchResult α :=
  fetchLoop endpoint [] 0 0 fuel

/-- A mock endpoint serving a fixed list of records in pages of 1000, never
failing: the page at a given offset is the next 1000 records from there. -/
def mockEndpoint {α : Type} (records : List α) (offset : ℕ) : PageResp α :=
  .ok ((records.drop offset).take 1000)

/-- Requests issued and record count returned when fetching the mock
endpoint serving n records, with ample fuel: the observable pair of the
pagination-termination property. -/
def mockFetchStats (n : ℕ) : ℕ × Option ℕ :=
  let r := fetchFromApi (mockEndpoint (List.range n)) (n / 1000 + 2)
  (r.1,
   match r.2 with
   | .success rows => some rows.length
   | _ => none)

/-- Ceiling division, the request count asserted by the pagination claim. -/
def ceilDiv (n p : ℕ) : ℕ := (n + p - 1) / p

/-- An endpoint whose first page is full and whose second page answers with
a non-success HTTP status. -/
def errEndpointHttp (n : ℕ) : PageResp ℕ :=
  if n = 0 then .ok (List.range 1000) else .httpError

/-- An endpoint whose first page is full and whose second page raises a
network-level exception. -/
def errEndpointNet (n : ℕ) : PageResp ℕ :=
  if n = 0 then .ok (List.range 1000) else .netError

/-- The two on-disk snapshot slots of the scraper: the current file and the
backup file, each either absent or holding a table. -/
structure CacheState (α : Type) where
  current : Option α
  backup : Option α
  deriving DecidableEq

/-- MedicaidAPIScraper.save_data (apiscraper.py lines 71-82): when a current
snapshot exists, any existing backup is deleted and current is renamed to
backup, then the new table is written as current; when no current snapshot
exists the backup slot is untouched and the table is written as current. -/
def saveData {α : Type} (s : CacheState α) (df : α) : CacheState α :=
  match s.current with
  | some cur => { current := some df, backup := some cur }
  | none => { current := some df, backup := s.backup }

/-- MedicaidAPIScraper.load_current_data (apiscraper.py lines 84-92): reads
the current slot when present and returns None otherwise; the backup slot
is never consulted. -/
def loadCurrentData {α : Type} (s : CacheState α) : Option α :=
  s.current

/-- MedicaidAPIScraper.fetch_or_load (apiscraper.py lines 94-103).  The
outcome of fetch_from_api is network input, passed here as the argument
fetched (some table on success, none on failure): when force_refresh is set
or no current snapshot exists, the fetch outcome is returned, and save_data
runs only when that outcome is a table; otherwise the current snapshot is
loaded.  Returns the table-or-None result together with the cache state. -/
def fetchOrLoad {α : Type} (s : CacheState α) (fetched : Option α)
    (forceRefresh : Bool) : Option α × CacheState α :=
  if forceRefresh || s.current.isNone then
    match fetched with
    | some df => (some df, saveData s df)
    | none => (none, s)
  else (loadCurrentData s, s)

/-- Division as the Python evaluates it on the float values of this
pipeline: a zero denominator raises ZeroDivisionError or yields a non-finite
float, never a number; `none` marks that outcome, `some` the finite
quotient. -/
def pyDiv (a b : ℚ) : Option ℚ :=
  if b = 0 then none else some (a / b)

/-- The guarded utilization-rate divisions of analyze.py (lines 122, 196,
205, 266, 398): active divided by eligible times 100 when the denominator
is positive, and the literal 0 otherwise. -/
def utilizationRate (active eligible : ℚ) : Option ℚ :=
  if 0 < eligible then (pyDiv active eligible).map (fun q => q * 100) else some 0

/-- The guarded weighted-average division of analyze.py line 130: total
services divided by total active patients when positive, else 0. -/
def weightedAvgServices (totalServices totalActive : ℚ) : Option ℚ :=
  if 0 < totalActive then pyDiv totalServices totalActive else some 0

/-- The market-share divisions of analyze.py lines 331, 335, 445 and 449:
an entity value divided by the comparison-set total times 100, with no
zero-denominator guard. -/
def marketShare (entity total : ℚ) : Option ℚ :=
  (pyDiv entity total).map (fun q => q * 100)

/-- The guarded eligible-population share of analyze.py line 343. -/
def eligibleShare (entity total : ℚ) : Option ℚ :=
  if 0 < total then (pyDiv entity total).map (fun q => q * 100) else some 0

/-- The year-over-year growth division of analyze.py lines 281 and 413:
the change from the previous value divided by the previous value times 100,
with no zero-denominator guard. -/
def growthRate (current previous : ℚ) : Option ℚ :=
  (pyDiv (current - previous) previous).map (fun q => q * 100)

/-- The guarded enrollment-change divisions of analyze.py lines 519-521
and 543. -/
def enrollmentChange (current baseline : ℚ) : Option ℚ :=
  if 0 < baseline then (pyDiv (current - baseline) baseline).map (fun q => q * 100)
  else some 0

/-- The county-leadership percentage of analyze.py line 361: counties led
divided by total counties times 100, with no zero-denominator guard. -/
def leadershipPct (leaderCount totalCounties : ℚ) : Option ℚ :=
  (pyDiv leaderCount totalCounties).map (fun q => q * 100)

/-- Sum of the active-patient column over a row set, each row an
(active, eligible) pair (analyze.py line 194). -/
def sumActive (rows : List (ℚ × ℚ)) : ℚ :=
  (rows.map Prod.fst).sum

/-- Sum of the eligible-patient column over a row set (analyze.py
line 195). -/
def sumEligible (rows : List (ℚ × ℚ)) : ℚ :=
  (rows.map Prod.snd).sum

/-- The true utilization rate of analyze.py lines 193-196: the columns are
summed before dividing, with the guarded division pattern (the denominator
is positive whenever this is applied, so the plain quotient is returned). -/
def trueUtilization (rows : List (ℚ × ℚ)) : ℚ :=
  if 0 < sumEligible rows then sumActive rows / sumEligible rows * 100 else 0

/-- Modelled from the spec: the unweighted mean of per-row percentages,
the computation the spec says the engine must NOT use, written out as a
contrast to trueUtilization. -/
def naiveMeanOfRowPercents (rows : List (ℚ × ℚ)) : ℚ :=
  if rows.length = 0 then 0
  else (rows.map (fun r => r.1 / r.2 * 100)).sum / rows.length

/-- Model of the Python int constructor on a string: optional surrounding
spaces, an optional sign, then at least one decimal digit; anything else
raises, modelled as none. -/
def pyInt (s : String) : Option ℤ :=
  let cs := ((s.data.dropWhile (fun c => c == ' ')).reverse.dropWhile
    (fun c => c == ' ')).reverse
  let neg : Bool := cs.head? == some '-'
  let ds := if cs.head? == some '-' || cs.head? == some '+' then cs.tail else cs
  if ds ≠ [] ∧ ds.all Char.isDigit then
    some (if neg then -(digitsToNat ds : ℤ) else (digitsToNat ds : ℤ))
  else none

/-- extract_ratio of analyze.py lines 212-217: take everything before the
first colon of the string form of the field and convert it with int; any
conversion failure is caught and becomes None. -/
def extractRatioField (s : String) : Option ℤ :=
  pyInt ⟨s.data.takeWhile (fun c => c != ':')⟩

/-- The average over the non-missing parsed ratios (analyze.py lines
224-227): drop the missing values; when none remain the code prints that no
valid data exists instead of producing a number, modelled as none. -/
def meanValid (xs : List (Option ℤ)) : Option ℚ :=
  let v := xs.filterMap id
  if v.length = 0 then none
  else some ((v.map (fun z => (z : ℚ))).sum / v.length)

/-- One entry of the year-over-year growth column: the baseline printed for
the first observed year, a computed growth value, or the outcome of the
unguarded division at a zero predecessor (a ZeroDivisionError or a
non-finite float in the Python, never a number). -/
inductive GrowthEntry where
  | baseline
  | value (g : ℚ)
  | divErr
  deriving DecidableEq

/-- The body of the year-over-year loop of analyze.py lines 276-286 once a
previous value exists: each further value contributes its growth rate
against its predecessor, through the unguarded division modelled by
growthRate — a zero predecessor therefore yields the error entry, not a
number. -/
def yoyAux (p : ℚ) : List ℚ → List GrowthEntry
  | [] => []
  | v :: rest =>
      (match growthRate v p with
       | some g => GrowthEntry.value g
       | none => GrowthEntry.divErr) :: yoyAux v rest

/-- The year-over-year growth column of a time-ordered series (analyze.py
lines 272-286): the first observed year carries no growth value (the code
prints baseline), and every later year carries the growth rate against the
preceding value. -/
def yoyGrowth : List ℚ → List GrowthEntry
  | [] => []
  | v :: rest => GrowthEntry.baseline :: yoyAux v rest

/-- Loop invariant of the pagination loop over a mock endpoint serving a
fixed record list: from any offset, with enough fuel, the loop issues one
request per remaining full page plus one terminating request, and appends
exactly the remaining records. -/
theorem fetchLoop_mock {α : Type} (R : List α) :
    ∀ (fuel : ℕ) (acc : List α) (count offset : ℕ),
      (R.length - offset) / 1000 < fuel →
      fetchLoop (mockEndpoint R) acc count offset fuel =
        (count + (R.length - offset) / 1000 + 1, .success (acc ++ R.drop offset)) := by
  intro fuel
  induction fuel with
  | zero => intro acc count offset h; omega
  | succ f ih =>
    intro acc count offset h
    by_cases hbig : 1000 ≤ R.length - offset
    · have hlen : ((R.drop offset).take 1000).length = 1000 := by
        rw [List.length_take, List.length_drop]
        omega
      have hne : (R.drop offset).take 1000 ≠ [] := by
        intro hb
        rw [hb] at hlen
        simp at hlen
      have hrec := ih (acc ++ (R.drop offset).take 1000) (count + 1) (offset + 1000)
        (by omega)
      simp only [fetchLoop, mockEndpoint, List.isEmpty_iff, hne, if_false, hlen,
        Nat.lt_irrefl, hrec]
      have hdrop : R.drop (offset + 1000) = (R.drop offset).drop 1000 := by
        rw [List.drop_drop, Nat.add_comm]
      rw [Prod.mk.injEq]
      refine ⟨by omega, ?_⟩
      rw [hdrop, List.append_assoc, List.take_append_drop]
    · by_cases hzero : R.length ≤ offset
      · have hdnil : R.drop offset = [] := List.drop_eq_nil_of_le hzero
        simp only [fetchLoop, mockEndpoint, hdnil, List.take_nil, List.isEmpty_nil,
          if_true, List.append_nil]
        rw [Prod.mk.injEq]
        exact ⟨by omega, rfl⟩
      · have htake : (R.drop offset).take 1000 = R.drop offset := by
          apply List.take_of_length_le
          rw [List.length_drop]
          omega
        have hne : R.drop offset ≠ [] := by
          intro hb
          have := List.length_drop offset R
          rw [hb] at this
          simp at this
          omega
        have hlt : (R.drop offset).length < 1000 := by
          rw [List.length_drop]
          omega
        simp only [fetchLoop, mockEndpoint, htake, List.isEmpty_iff, hne, if_false,
          hlt, if_true]
        rw [Prod.mk.injEq]
        exact ⟨by omega, rfl⟩

/-- C1 (amended): for every endpoint serving N total records with page size
1000, fetch_from_api issues exactly N / 1000 + 1 page requests — one per
full page plus the terminating short-or-empty page — and returns exactly N
records; in particular this holds for N in {0, 999, 1000, 1001, 10000},
where the request count exceeds the ceiling of N / 1000 whenever 1000
divides N. -/
theorem pagination_request_count (n : ℕ) :
    mockFetchStats n = (n / 1000 + 1, some n) := by
  have h := fetchLoop_mock (List.range n) (n / 1000 + 2) [] 0 0
    (by rw [List.length_range]; omega)
  simp only [mockFetchStats, fetchFromApi, h, List.length_range, Nat.sub_zero,
    List.drop_zero, List.nil_append]
  simp [List.length_range]

/-- C1 (counterexample): at N = 0 the fetcher issues one request — the
probe that discovers the empty page — while the claim asserts the ceiling
of 0 / 1000, which is zero requests. -/
theorem pagination_count_counterexample :
    (fetchFromApi (mockEndpoint ([] : List ℕ)) 2).1 = 1 ∧
    ceilDiv 0 1000 = 0 ∧
    (fetchFromApi (mockEndpoint ([] : List ℕ)) 2).1 ≠ ceilDiv 0 1000 := by
  decide

/-- Loop invariant for a failing endpoint: when the pages before page n are
full and the request for page n does not answer with a success status, the
loop issues exactly those n + 1 requests and fails with no rows. -/
theorem fetchLoop_fails {α : Type} (endpoint : ℕ → PageResp α) :
    ∀ (n : ℕ) (acc : List α) (count offset fuel : ℕ),
      n < fuel →
      (∀ i, i < n → ∃ b, endpoint (offset + i * 1000) = .ok b ∧ b.length = 1000) →
      (∀ b, endpoint (offset + n * 1000) ≠ .ok b) →
      fetchLoop endpoint acc count offset fuel = (count + n + 1, .failure) := by
  intro n
  induction n with
  | zero =>
    intro acc count offset fuel hfuel hok herr
    cases fuel with
    | zero => omega
    | succ f =>
      have herr0 : ∀ b, endpoint offset ≠ .ok b := by
        intro b
        have := herr b
        simpa using this
      cases hep : endpoint offset with
      | ok b => exact absurd hep (herr0 b)
      | httpError => simp [fetchLoop, hep]
      | netError => simp [fetchLoop, hep]
  | succ m ih =>
    intro acc count offset fuel hfuel hok herr
    cases fuel with
    | zero => omega
    | succ f =>
      obtain ⟨b, hb, hblen⟩ := hok 0 (by omega)
      rw [show offset + 0 * 1000 = offset by ring] at hb
      have hbne : b ≠ [] := by
        intro hnil
        rw [hnil] at hblen
        simp at hblen
      have hrec := ih (acc ++ b) (count + 1) (offset + 1000) f (by omega)
        (fun i hi => by
          obtain ⟨c, hc, hclen⟩ := hok (i + 1) (by omega)
          rw [show offset + (i + 1) * 1000 = offset + 1000 + i * 1000 by ring] at hc
          exact ⟨c, hc, hclen⟩)
        (fun c => by
          have := herr c
          rw [show offset + (m + 1) * 1000 = offset + 1000 + m * 1000 by ring] at this
          exact this)
      simp only [fetchLoop, hb, List.isEmpty_iff, hbne, if_false, hblen,
        Nat.lt_irrefl, hrec]
      rw [Prod.mk.injEq]
      exact ⟨by omega, rfl⟩

/-- C9: if the pages before page j are served in full and the request for
page j yields a non-success HTTP status or a network-level exception (any
outcome other than a success response), fetch_from_api fails for the whole
fetch: it returns the failure outcome, which carries none of the previously
fetched pages, after issuing exactly j + 1 requests — so the failing page
is requested once and never retried. -/
theorem transport_error_spec {α : Type} (endpoint : ℕ → PageResp α) (j fuel : ℕ)
    (hfuel : j < fuel)
    (hok : ∀ i, i < j → ∃ b, endpoint (i * 1000) = .ok b ∧ b.length = 1000)
    (herr : ∀ b, endpoint (j * 1000) ≠ .ok b) :
    fetchFromApi endpoint fuel = (j + 1, .failure) := by
  have h := fetchLoop_fails endpoint j [] 0 0 fuel hfuel
    (by simpa using hok) (by simpa using herr)
  simpa [fetchFromApi] using h

/-- Witness for C9: endpoints failing on their second page, once with a
non-success status and once with a network exception, each fail after
exactly two requests. -/
theorem transport_error_witness :
    fetchFromApi errEndpointHttp 3 = (2, .failure) ∧
    fetchFromApi errEndpointNet 3 = (2, .failure) := by
  constructor
  · exact transport_error_spec errEndpointHttp 1 3 (by omega)
      (fun i hi => by
        have h0 : i = 0 := by omega
        subst h0
        exact ⟨List.range 1000, rfl, by simp⟩)
      (fun b hb => by simp [errEndpointHttp] at hb)
  · exact transport_error_spec errEndpointNet 1 3 (by omega)
      (fun i hi => by
        have h0 : i = 0 := by omega
        subst h0
        exact ⟨List.range 1000, rfl, by simp⟩)
      (fun b hb => by simp [errEndpointNet] at hb)

/-- C2 (counterexample): the Comprehensive-MCO market-share division, the
year-over-year growth division and the county-leadership percentage carry
no zero-denominator guard, so with a zero denominator they do not return 0:
the operation errors or produces a non-finite value, modelled by none. -/
theorem division_guard_counterexample :
    marketShare 5 0 ≠ some 0 ∧ marketShare 5 0 = none ∧
    growthRate 10 0 = none ∧ leadershipPct 3 0 = none := by
  refine ⟨?_, ?_, ?_, ?_⟩ <;> simp [marketShare, growthRate, leadershipPct, pyDiv]

/-- C2 (amended): the utilization-rate, weighted-average, eligible-share
and enrollment-change divisions guard the zero denominator and return the
literal 0; the market-share, year-over-year growth and county-leadership
divisions are unguarded and produce no number at all on a zero
denominator. -/
theorem division_guard_amended (a : ℚ) :
    utilizationRate a 0 = some 0 ∧
    weightedAvgServices a 0 = some 0 ∧
    eligibleShare a 0 = some 0 ∧
    enrollmentChange a 0 = some 0 ∧
    marketShare a 0 = none ∧
    growthRate a 0 = none ∧
    leadershipPct a 0 = none := by
  refine ⟨?_, ?_, ?_, ?_, ?_, ?_, ?_⟩ <;>
    simp [utilizationRate, weightedAvgServices, eligibleShare, enrollmentChange,
      marketShare, growthRate, leadershipPct, pyDiv]

/-- Witness for C2 (amended) at numerator 7. -/
theorem division_guard_amended_witness :
    utilizationRate 7 0 = some 0 ∧
    weightedAvgServices 7 0 = some 0 ∧
    eligibleShare 7 0 = some 0 ∧
    enrollmentChange 7 0 = some 0 ∧
    marketShare 7 0 = none ∧
    growthRate 7 0 = none ∧
    leadershipPct 7 0 = none :=
  division_guard_amended 7

/-- C3: whenever the summed eligible population is positive, the
utilization rate the engine computes is the quotient of the summed active
patients by the summed eligible patients, times 100 — the sums are taken
before dividing. -/
theorem true_utilization_spec (rows : List (ℚ × ℚ)) (h : 0 < sumEligible rows) :
    trueUtilization rows = sumActive rows / sumEligible rows * 100 :=
  if_pos h

/-- Witness for C3 on the asymmetric-population rows (10, 20) and (5, 100):
the engine returns 12.5 percent, while the unweighted mean of the per-row
percentages would be 27.5 percent. -/
theorem true_utilization_witness :
    trueUtilization [(10, 20), (5, 100)] = 25 / 2 ∧
    naiveMeanOfRowPercents [(10, 20), (5, 100)] = 55 / 2 ∧
    trueUtilization [(10, 20), (5, 100)] ≠
      naiveMeanOfRowPercents [(10, 20), (5, 100)] :=
  ⟨(true_utilization_spec [(10, 20), (5, 100)] (by norm_num [sumEligible])).trans
    (by norm_num [sumActive, sumEligible]),
   by norm_num [naiveMeanOfRowPercents],
   by norm_num [trueUtilization, naiveMeanOfRowPercents, sumActive, sumEligible]⟩

/-- C4: after two consecutive save_data calls with tables t1 then t2, from
any starting state of the two snapshot slots, load_current_data returns
exactly t2 and the backup slot holds exactly t1; and whenever no current
snapshot exists, load_current_data returns none even if a backup exists —
it never falls back to the backup slot. -/
theorem cache_rotation_spec {α : Type} (s : CacheState α) (t1 t2 : α) :
    loadCurrentData (saveData (saveData s t1) t2) = some t2 ∧
    (saveData (saveData s t1) t2).backup = some t1 ∧
    (∀ s2 : CacheState α, s2.current = none → loadCurrentData s2 = none) := by
  obtain ⟨cur, bak⟩ := s
  refine ⟨?_, ?_, fun s2 h2 => ?_⟩
  · cases cur <;> simp [saveData, loadCurrentData]
  · cases cur <;> simp [saveData]
  · simpa [loadCurrentData] using h2

/-- Witness for C4 with concrete slots and tables. -/
theorem cache_rotation_witness :
    loadCurrentData (saveData (saveData (⟨some 7, some 9⟩ : CacheState ℕ) 1) 2) =
      some 2 ∧
    (saveData (saveData (⟨some 7, some 9⟩ : CacheState ℕ) 1) 2).backup = some 1 ∧
    loadCurrentData (⟨none, some 5⟩ : CacheState ℕ) = none :=
  ⟨(cache_rotation_spec (⟨some 7, some 9⟩ : CacheState ℕ) 1 2).1,
   (cache_rotation_spec (⟨some 7, some 9⟩ : CacheState ℕ) 1 2).2.1,
   (cache_rotation_spec (⟨some 7, some 9⟩ : CacheState ℕ) 1 2).2.2
     ⟨none, some 5⟩ rfl⟩

/-- C10: when fetch_or_load delegates to the fetcher (force_refresh set or
no current snapshot) and the fetch fails, the failure is returned and the
cache state is unchanged — neither slot is touched; save_data runs only
when the delegated fetch succeeds. -/
theorem fetch_or_load_failure {α : Type} (s : CacheState α) (force : Bool)
    (h : force = true ∨ s.current = none) :
    fetchOrLoad s none force = (none, s) ∧
    (∀ df : α, fetchOrLoad s (some df) force = (some df, saveData s df)) := by
  have hcond : (force || s.current.isNone) = true := by
    rcases h with h | h
    · simp [h]
    · simp [h]
  exact ⟨by simp [fetchOrLoad, hcond], fun df => by simp [fetchOrLoad, hcond]⟩

/-- Witness for C10: a failed refresh over a populated cache returns the
failure and leaves both slots exactly as they were. -/
theorem fetch_or_load_failure_witness :
    fetchOrLoad (⟨some 3, some 4⟩ : CacheState ℕ) none true =
      (none, (⟨some 3, some 4⟩ : CacheState ℕ)) ∧
    fetchOrLoad (⟨some 3, some 4⟩ : CacheState ℕ) (some 5) true =
      (some 5, saveData (⟨some 3, some 4⟩ : CacheState ℕ) 5) :=
  ⟨(fetch_or_load_failure (⟨some 3, some 4⟩ : CacheState ℕ) true (Or.inl rfl)).1,
   (fetch_or_load_failure (⟨some 3, some 4⟩ : CacheState ℕ) true (Or.inl rfl)).2 5⟩

/-- C7: ratio extraction parses the leading integer before the first colon,
any parse failure becomes the missing marker without raising, and the
average ignores every missing entry: prepending a missing value never
changes it. -/
theorem ratio_parsing_spec :
    extractRatioField "12:1" = some 12 ∧
    extractRatioField "abc" = none ∧
    meanValid [some 12, none, some 8] = some 10 ∧
    ∀ xs : List (Option ℤ), meanValid (none :: xs) = meanValid xs := by
  refine ⟨by decide, by decide, by norm_num [meanValid, List.filterMap_cons],
    fun xs => ?_⟩
  simp [meanValid]

/-- Each entry of the growth column produced once a previous value exists:
when the predecessor is nonzero, entry i compares element i + 1 of the
extended series against element i. -/
theorem yoyAux_entry (p : ℚ) (vs : List ℚ) (i : ℕ) (a b : ℚ)
    (ha : (p :: vs).get? i = some a) (hb : (p :: vs).get? (i + 1) = some b)
    (hne : a ≠ 0) :
    (yoyAux p vs).get? i = some (GrowthEntry.value ((b - a) / a * 100)) := by
  induction i generalizing p vs with
  | zero =>
    cases vs with
    | nil => simp at hb
    | cons v rest =>
      simp only [List.get?_cons_zero] at ha
      simp only [List.get?_cons_succ, List.get?_cons_zero] at hb
      obtain rfl : p = a := Option.some.inj ha
      obtain rfl : v = b := Option.some.inj hb
      simp [yoyAux, growthRate, pyDiv, hne]
  | succ j ih =>
    cases vs with
    | nil => simp at hb
    | cons v rest =>
      simp only [List.get?_cons_succ] at ha hb
      simpa [yoyAux] using ih v rest ha hb

/-- C8: on a time-ordered series, the first observed year carries no growth
value (the baseline), and every later entry t whose predecessor is nonzero
— a zero predecessor makes the unguarded division of the program error
instead — equals the change from the preceding value divided by the
preceding value, times 100. -/
theorem yoy_growth_spec (vs : List ℚ) (i : ℕ) (a b : ℚ)
    (ha : vs.get? i = some a) (hb : vs.get? (i + 1) = some b) (hne : a ≠ 0) :
    (yoyGrowth vs).get? 0 = some GrowthEntry.baseline ∧
    (yoyGrowth vs).get? (i + 1) = some (GrowthEntry.value ((b - a) / a * 100)) := by
  cases vs with
  | nil => simp at ha
  | cons v rest =>
    exact ⟨rfl, by simpa [yoyGrowth] using yoyAux_entry v rest i a b ha hb hne⟩

/-- Witness for C8 on the three-year series [100, 150, 120]: the growth
column reads baseline, then +50 percent, then -20 percent. -/
theorem yoy_growth_witness :
    (yoyGrowth [100, 150, 120]).get? 0 = some GrowthEntry.baseline ∧
    (yoyGrowth [100, 150, 120]).get? 1 = some (GrowthEntry.value 50) ∧
    (yoyGrowth [100, 150, 120]).get? 2 = some (GrowthEntry.value (-20)) :=
  ⟨(yoy_growth_spec [100, 150, 120] 0 100 150 rfl rfl (by norm_num)).1,
   ((yoy_growth_spec [100, 150, 120] 0 100 150 rfl rfl (by norm_num)).2).trans
     (by norm_num),
   ((yoy_growth_spec [100, 150, 120] 1 150 120 rfl rfl (by norm_num)).2).trans
     (by norm_num)⟩

/-- C5: clean_datatypes preserves every column name and every column
length (so the row count is unchanged and absent designated columns are
simply skipped), leaves any column outside the designated numeric list
untouched, and on the designated example column the cells 1,234 / bad /
empty / 56 become 1234 / missing / missing / 56 — the function is total,
so no input makes it raise, and it acts on a copy, leaving its input
frame unchanged. -/
theorem clean_datatypes_spec (df : DataFrame) :
    ((cleanDatatypes df).cols.map (fun c => (c.1, c.2.length)) =
      df.cols.map (fun c => (c.1, c.2.length))) ∧
    (∀ c ∈ df.cols, c.1 ∉ numericColumns → c ∈ (cleanDatatypes df).cols) ∧
    (cleanDatatypes ⟨[("Number of Providers",
        [Cell.str "1,234", Cell.str "bad", Cell.str "", Cell.str "56"])]⟩ =
      ⟨[("Number of Providers",
        [Cell.num 1234, Cell.missing, Cell.missing, Cell.num 56])]⟩) := by
  refine ⟨?_, ?_, ?_⟩
  · obtain ⟨l⟩ := df
    simp only [cleanDatatypes, List.map_map]
    induction l with
    | nil => rfl
    | cons c t iht =>
      simp only [List.map_cons] at iht ⊢
      rw [iht]
      by_cases hc : c.1 ∈ numericColumns <;> simp [hc, Function.comp]
  · intro c hc hn
    simp only [cleanDatatypes, List.mem_map]
    exact ⟨c, hc, by simp [hn]⟩
  · decide

/-- Witness for C5: a column outside the designated numeric list passes
through the cleaning unchanged. -/
theorem clean_datatypes_witness :
    ("State", [Cell.str "Michigan"]) ∈
      (cleanDatatypes ⟨[("State", [Cell.str "Michigan"])]⟩).cols :=
  (clean_datatypes_spec ⟨[("State", [Cell.str "Michigan"])]⟩).2.1
    ("State", [Cell.str "Michigan"]) (by simp) (by decide)

/-- C6: the cleaning pipeline filters on the jurisdiction first and the
service category second; a zero-row outcome of the first stage, or of the
second stage, short-circuits to the EmptyResult signal rather than a
crash; and when both stages keep rows the pipeline returns the
behavioral-health filter of the Michigan filter of the type-cleaned frame
— with the advisory warning flag set exactly when fewer than 11000 rows
remain, the table being returned either way. -/
theorem clean_pipeline_spec (df : DataFrame) :
    (numRows (filterEq (cleanDatatypes df) "State" "Michigan") = 0 →
      cleanMichiganBehavioral df = CleanOutcome.emptyResult) ∧
    (numRows (filterEq (filterEq (cleanDatatypes df) "State" "Michigan")
        "Service Category" "Behavioral Health") = 0 →
      cleanMichiganBehavioral df = CleanOutcome.emptyResult) ∧
    (0 < numRows (filterEq (cleanDatatypes df) "State" "Michigan") →
      0 < numRows (filterEq (filterEq (cleanDatatypes df) "State" "Michigan")
        "Service Category" "Behavioral Health") →
      cleanMichiganBehavioral df =
        CleanOutcome.ok
          (filterEq (filterEq (cleanDatatypes df) "State" "Michigan")
            "Service Category" "Behavioral Health")
          (decide (numRows (filterEq (filterEq (cleanDatatypes df) "State" "Michigan")
            "Service Category" "Behavioral Health") < 11000))) := by
  refine ⟨fun h1 => ?_, fun h2 => ?_, fun hMI hBH => ?_⟩
  · simp [cleanMichiganBehavioral, h1]
  · by_cases h1 : numRows (filterEq (cleanDatatypes df) "State" "Michigan") = 0
    · simp [cleanMichiganBehavioral, h1]
    · simp [cleanMichiganBehavioral, h1, h2]
  · have h1 : ¬ numRows (filterEq (cleanDatatypes df) "State" "Michigan") = 0 := by
      omega
    have h2 : ¬ numRows (filterEq (filterEq (cleanDatatypes df) "State" "Michigan")
        "Service Category" "Behavioral Health") = 0 := by
      omega
    simp [cleanMichiganBehavioral, h1, h2]

/-- Witness for C6: a two-row frame with one Michigan behavioral-health row
comes out as the one-row filtered table, with the low-row-count warning
flag set and no EmptyResult. -/
theorem clean_pipeline_witness :
    cleanMichiganBehavioral
      ⟨[("State", [Cell.str "Michigan", Cell.str "Ohio"]),
        ("Service Category", [Cell.str "Behavioral Health", Cell.str "Behavioral Health"])]⟩ =
      CleanOutcome.ok
        (filterEq (filterEq (cleanDatatypes
            ⟨[("State", [Cell.str "Michigan", Cell.str "Ohio"]),
              ("Service Category",
                [Cell.str "Behavioral Health", Cell.str "Behavioral Health"])]⟩)
          "State" "Michigan") "Service Category" "Behavioral Health")
        true :=
  ((clean_pipeline_spec
      ⟨[("State", [Cell.str "Michigan", Cell.str "Ohio"]),
        ("Service Category",
          [Cell.str "Behavioral Health", Cell.str "Behavioral Health"])]⟩).2.2
    (by decide) (by decide)).trans (by decide)

end Medicaid
